import Mathlib

/-!
Shallow embedding of the authentication backend (src/backend) of the
pnpm_uv repository: the `User` data model with its password hashing
(models.py), and the auth service endpoints (auth.py): login, logout,
whoami, change-password, and the admin-gated list/create/delete user
operations.  Errors are modelled as the HTTP errors the code raises
(status code + detail string), mutating endpoints return the updated
store alongside their response, and a small operation language with a
step function lets us state store invariants over arbitrary request
sequences.
-/

set_option maxRecDepth 100000

namespace PnpmUv

/-- An HTTP error as raised by `HTTPException(status_code=..., detail=...)`
in auth.py.  The spec taxonomy maps 400 to ValidationError, 401 to
AuthError(InvalidCredentials), 403 to AuthError(Forbidden) and 404 to
NotFoundError. -/
structure HTTPError where
  status : Nat
  detail : String
deriving DecidableEq

/-- The shared 401 error built at the top of `get_current_user_obj` and
`get_current_user` (auth.py lines 30-34 and 114-118): every token
validation failure raises this same value. -/
def credentials_exception : HTTPError :=
  ⟨401, "Could not validate credentials"⟩

/-- Abstract model of `pwd_context.hash` (passlib sha256_crypt,
models.py line 13).  The hash is modelled as an injective encoding of
the hashed plaintext: the cryptographic assumption is that verification
succeeds exactly on the preimage, and sha256_crypt itself imposes no
length limit on its input. -/
def pwd_context_hash (password : String) : String :=
  "$5$salt$" ++ password

/-- Abstract model of `pwd_context.verify` (passlib sha256_crypt):
recomputes the hash of the candidate password and compares with the
stored hash.  sha256_crypt performs no truncation of the candidate. -/
def pwd_context_verify (password hash : String) : Bool :=
  hash == pwd_context_hash password

/-- The `User` row of models.py (lines 16-27).  The TimestampMixin
columns and the ORM relationship lists are carried by no logic in the
core and are omitted; `email_verified` is the optional
millisecond-timestamp column. -/
structure User where
  id : String
  name : Option String
  email : String
  email_verified : Option Int
  image : Option String
  password_hash : Option String
deriving DecidableEq

/-- `User.set_password` (models.py lines 29-34): when the UTF-8 encoding
of the password exceeds 72 bytes, the Python code slices
`password[:72]`, i.e. keeps the first 72 characters (code points), then
hashes the result. -/
def User.set_password (u : User) (password : String) : User :=
  let password :=
    if password.toUTF8.size > 72 then password.take 72 else password
  { u with password_hash := some (pwd_context_hash password) }

/-- `User.verify_password` (models.py lines 36-40): false when the hash
column is unset, otherwise passlib verification of the untruncated
candidate against the stored hash. -/
def User.verify_password (u : User) (password : String) : Bool :=
  match u.password_hash with
  | none => false
  | some h => pwd_context_verify password h

/-- The JWT claim set produced by `create_access_token` (auth.py lines
54-63): the payload dict `sub`/`user_id` plus the absolute expiry
timestamp (seconds). -/
structure Claims where
  sub : Option String
  user_id : Option String
  exp : Nat
deriving DecidableEq

/-- A bearer token: either a well-formed JWT signed with some key, or a
string that does not parse as a JWT at all. -/
inductive Token where
  | signed (claims : Claims) (key : String)
  | malformed (raw : String)
deriving DecidableEq

/-- `SECRET_KEY` (auth.py line 17), the server-held signing secret. -/
def SECRET_KEY : String :=
  "your-secret-key-here-should-be-long-and-random"

/-- `ACCESS_TOKEN_EXPIRE_MINUTES` (auth.py line 19). -/
def ACCESS_TOKEN_EXPIRE_MINUTES : Nat := 30

/-- Model of `jwt.decode(token, key, algorithms=[ALGORITHM])` (python-jose):
fails on a malformed token, on a signature produced with a different
key, and on an elapsed expiry (`exp < now`); all three raise `JWTError`
and are indistinguishable to the caller. -/
def jwt_decode (tok : Token) (key : String) (now : Nat) :
    Except Unit Claims :=
  match tok with
  | .malformed _ => .error ()
  | .signed c k =>
    if k != key then .error ()
    else if c.exp < now then .error ()
    else .ok c

/-- `create_access_token` (auth.py lines 54-63): embeds the data dict
and an expiry of now plus the given delta (seconds), defaulting to 15
minutes, and signs with `SECRET_KEY`. -/
def create_access_token (sub user_id : Option String)
    (expires_delta : Option Nat) (now : Nat) : Token :=
  let exp :=
    match expires_delta with
    | some d => now + d
    | none => now + 15 * 60
  .signed ⟨sub, user_id, exp⟩ SECRET_KEY

/-- The user table, one `User` row per entry.  `id` is the primary key,
so a well-formed store has pairwise distinct ids. -/
abbrev Store := List User

/-- A well-formed database state: the primary-key column `id` holds no
duplicates (models.py line 17, `primary_key=True`). -/
def ValidStore (store : Store) : Prop :=
  (store.map User.id).Nodup

/-- `get_user_by_email` (auth.py lines 49-52): first row whose email
column equals the argument. -/
def get_user_by_email (email : String) (store : Store) : Option User :=
  store.find? (fun u => u.email == email)

/-- `authenticate_user` (auth.py lines 65-72). -/
def authenticate_user (email password : String) (store : Store) :
    Option User :=
  match get_user_by_email email store with
  | none => none
  | some user =>
    if user.verify_password password then some user else none

/-- Response body of `POST /auth/token` (auth.py lines 95-101). -/
structure TokenResponse where
  access_token : Token
  token_type : String
  user_id : String
  email : String
  name : Option String
deriving DecidableEq

/-- `login_for_access_token` (auth.py lines 75-101): authenticate, 401
on failure, otherwise issue a 30-minute token carrying the user's email
and id. -/
def login_for_access_token (username password : String) (store : Store)
    (now : Nat) : Except HTTPError TokenResponse :=
  match authenticate_user username password store with
  | none => .error ⟨401, "Incorrect email or password"⟩
  | some user =>
    let access_token := create_access_token (some user.email)
      (some user.id) (some (ACCESS_TOKEN_EXPIRE_MINUTES * 60)) now
    .ok ⟨access_token, "bearer", user.id, user.email, user.name⟩

/-- `logout` (auth.py lines 103-106): returns a fixed acknowledgement
and touches no state; the store is threaded through to make the frame
property statable. -/
def logout (store : Store) : String × Store :=
  ("Successfully logged out", store)

/-- `get_current_user_obj` (auth.py lines 26-46): decode the token,
reject a missing `sub` claim, re-resolve the user by the embedded
email; every failure raises the one `credentials_exception`. -/
def get_current_user_obj (token : Token) (store : Store) (now : Nat) :
    Except HTTPError User :=
  match jwt_decode token SECRET_KEY now with
  | .error _ => .error credentials_exception
  | .ok payload =>
    match payload.sub with
    | none => .error credentials_exception
    | some email =>
      match get_user_by_email email store with
      | none => .error credentials_exception
      | some user => .ok user

/-- Response body of `GET /auth/me` (auth.py lines 132-137). -/
structure MeResponse where
  user_id : String
  email : String
  name : Option String
  email_verified : Bool
deriving DecidableEq

/-- `get_current_user`, the `GET /auth/me` endpoint (auth.py lines
108-137): same validation sequence as `get_current_user_obj`, then the
profile projection. -/
def get_current_user (token : Token) (store : Store) (now : Nat) :
    Except HTTPError MeResponse :=
  match jwt_decode token SECRET_KEY now with
  | .error _ => .error credentials_exception
  | .ok payload =>
    match payload.sub with
    | none => .error credentials_exception
    | some email =>
      match get_user_by_email email store with
      | none => .error credentials_exception
      | some user =>
        .ok ⟨user.id, user.email, user.name, user.email_verified.isSome⟩

/-- The JSON body of `POST /auth/change-password`; `data.get(...)` is
`none` for an absent key, and Python's `not x` is additionally true for
the empty string. -/
structure ChangePasswordBody where
  current_password : Option String
  new_password : Option String
deriving DecidableEq

/-- `change_password` (auth.py lines 139-155): missing/empty field
check first, then verification of the current password against the
resolved actor's stored hash (a 400, not a 401), then hash-and-persist
of the new password (commit modelled as updating the actor's row by
primary key). -/
def change_password (data : ChangePasswordBody) (current_user : User)
    (store : Store) : Except HTTPError (String × Store) :=
  match data.current_password, data.new_password with
  | some cp, some np =>
    if cp.isEmpty || np.isEmpty then
      .error ⟨400, "current_password and new_password are required"⟩
    else if !(current_user.verify_password cp) then
      .error ⟨400, "Current password is incorrect"⟩
    else
      let updated := current_user.set_password np
      .ok ("Password changed successfully",
        store.map (fun u => if u.id == current_user.id then updated else u))
  | _, _ =>
    .error ⟨400, "current_password and new_password are required"⟩

/-- One row of the `GET /users` and `POST /users` response bodies
(auth.py lines 167-170 and 194). -/
structure UserOut where
  id : String
  email : String
  name : Option String
deriving DecidableEq

/-- `list_users` (auth.py lines 157-170): hardcoded admin email check,
then the projection of every row. -/
def list_users (current_user : User) (store : Store) :
    Except HTTPError (List UserOut) :=
  if current_user.email != "admin@test.com" then
    .error ⟨403, "Only admin can manage users"⟩
  else
    .ok (store.map (fun u => ⟨u.id, u.email, u.name⟩))

/-- The JSON body of `POST /users`. -/
structure CreateUserBody where
  email : Option String
  name : Option String
  password : Option String
deriving DecidableEq

/-- `create_user` (auth.py lines 172-194): admin check, then
missing/empty field check, then email-uniqueness check, then insert of
a fresh row whose id the database layer generates (`uuid4`), passed
here as `newId`. -/
def create_user (data : CreateUserBody) (current_user : User)
    (store : Store) (newId : String) :
    Except HTTPError (UserOut × Store) :=
  if current_user.email != "admin@test.com" then
    .error ⟨403, "Only admin can manage users"⟩
  else
    match data.email, data.password with
    | some email, some password =>
      if email.isEmpty || password.isEmpty then
        .error ⟨400, "email and password are required"⟩
      else
        match get_user_by_email email store with
        | some _ => .error ⟨400, "Email already exists"⟩
        | none =>
          let user :=
            User.set_password ⟨newId, data.name, email, none, none, none⟩
              password
          .ok (⟨user.id, user.email, user.name⟩, store ++ [user])
    | _, _ => .error ⟨400, "email and password are required"⟩

/-- `delete_user` (auth.py lines 196-213): admin check, then lookup of
the target row by primary key (404 when absent), then the
admin-protection check, then deletion of the row. -/
def delete_user (user_id : String) (current_user : User)
    (store : Store) : Except HTTPError (String × Store) :=
  if current_user.email != "admin@test.com" then
    .error ⟨403, "Only admin can manage users"⟩
  else
    match store.find? (fun u => u.id == user_id) with
    | none => .error ⟨404, "User not found"⟩
    | some user =>
      if user.email == "admin@test.com" then
        .error ⟨400, "Cannot delete admin user"⟩
      else
        .ok ("User deleted", store.filter (fun u => !(u.id == user.id)))

/-- One inbound request to the service, with everything the framework
supplies from outside the store: the bearer token, the wall clock at
handling time, the request body, and (for create) the id the database
layer generates for the new row. -/
inductive Op where
  | loginOp (username password : String) (now : Nat)
  | logoutOp
  | whoamiOp (token : Token) (now : Nat)
  | changePasswordOp (token : Token) (now : Nat) (data : ChangePasswordBody)
  | listUsersOp (token : Token) (now : Nat)
  | createUserOp (token : Token) (now : Nat) (data : CreateUserBody)
      (newId : String)
  | deleteUserOp (token : Token) (now : Nat) (target : String)

/-- Effect of one request on the user table.  Token-guarded endpoints
first resolve the actor via `get_current_user_obj` (the FastAPI
dependency); any error leaves the store untouched, since every failure
in auth.py raises before the session commit. -/
def step (store : Store) (op : Op) : Store :=
  match op with
  | .loginOp .. => store
  | .logoutOp => (logout store).2
  | .whoamiOp .. => store
  | .changePasswordOp token now data =>
    match get_current_user_obj token store now with
    | .error _ => store
    | .ok cu =>
      match change_password data cu store with
      | .error _ => store
      | .ok (_, store2) => store2
  | .listUsersOp .. => store
  | .createUserOp token now data newId =>
    match get_current_user_obj token store now with
    | .error _ => store
    | .ok cu =>
      match create_user data cu store newId with
      | .error _ => store
      | .ok (_, store2) => store2
  | .deleteUserOp token now target =>
    match get_current_user_obj token store now with
    | .error _ => store
    | .ok cu =>
      match delete_user target cu store with
      | .error _ => store
      | .ok (_, store2) => store2

/-- Running a request sequence left to right. -/
def run (store : Store) (ops : List Op) : Store :=
  ops.foldl step store

/-- The database layer's guarantee that a generated `uuid4` primary key
is fresh for the store it is inserted into. -/
def OpFresh (s : Store) : Op → Bool
  | .createUserOp _ _ _ newId => s.all (fun u => !(u.id == newId))
  | _ => true

/-- Freshness of every generated id along a request sequence. -/
def IdsFresh : Store → List Op → Bool
  | _, [] => true
  | s, op :: rest => OpFresh s op && IdsFresh (step s op) rest

/-! Helper lemmas about lookup and well-formed stores. -/

theorem get_user_by_email_mem {email : String} {store : Store} {u : User}
    (h : get_user_by_email email store = some u) :
    u ∈ store ∧ u.email = email := by
  unfold get_user_by_email at h
  refine ⟨List.mem_of_find?_eq_some h, ?_⟩
  have := List.find?_some h
  simpa [beq_iff_eq] using this

theorem valid_store_id_inj {store : Store} (hv : ValidStore store)
    {u v : User} (hu : u ∈ store) (hw : v ∈ store) (h : u.id = v.id) :
    u = v :=
  List.inj_on_of_nodup_map hv hu hw h

theorem get_current_user_obj_mem {token : Token} {s : Store} {now : Nat}
    {cu : User} (h : get_current_user_obj token s now = .ok cu) :
    cu ∈ s := by
  unfold get_current_user_obj at h
  split at h
  · exact absurd h (by simp)
  · split at h
    · exact absurd h (by simp)
    · split at h
      · exact absurd h (by simp)
      · next user heq =>
          cases h
          exact (get_user_by_email_mem heq).1

theorem change_password_ok {data : ChangePasswordBody} {cu : User}
    {s : Store} {msg : String} {s2 : Store}
    (h : change_password data cu s = .ok (msg, s2)) :
    ∃ np, data.new_password = some np ∧
      s2 = s.map (fun u => if u.id == cu.id then cu.set_password np else u) := by
  obtain ⟨cp?, np?⟩ := data
  cases cp? <;> cases np? <;> simp only [change_password] at h <;>
    try exact Except.noConfusion h
  rename_i cp np
  split at h
  · exact Except.noConfusion h
  · split at h
    · exact Except.noConfusion h
    · cases h
      exact ⟨np, rfl, rfl⟩

theorem create_user_ok {data : CreateUserBody} {cu : User} {s : Store}
    {newId : String} {out : UserOut} {s2 : Store}
    (h : create_user data cu s newId = .ok (out, s2)) :
    ∃ w : User, w.id = newId ∧ w.password_hash.isSome ∧
      get_user_by_email w.email s = none ∧ s2 = s ++ [w] := by
  unfold create_user at h
  split at h
  · exact Except.noConfusion h
  · obtain ⟨e?, nm?, p?⟩ := data
    cases e? <;> cases p? <;> simp only at h <;>
      try exact Except.noConfusion h
    rename_i email password
    split at h
    · exact Except.noConfusion h
    · split at h
      · exact Except.noConfusion h
      · next hnone =>
          cases h
          refine ⟨_, rfl, ?_, hnone, rfl⟩
          rfl

theorem delete_user_ok {uid : String} {cu : User} {s : Store}
    {msg : String} {s2 : Store}
    (h : delete_user uid cu s = .ok (msg, s2)) :
    ∃ w : User, s.find? (fun u => u.id == uid) = some w ∧
      (w.email == "admin@test.com") = false ∧
      s2 = s.filter (fun u => !(u.id == w.id)) := by
  unfold delete_user at h
  split at h
  · exact absurd h (by simp)
  · split at h
    · exact absurd h (by simp)
    · next w hfind =>
        split at h
        · exact absurd h (by simp)
        · next hadm =>
            cases h
            exact ⟨w, hfind, by simpa using hadm, rfl⟩

/-- One request can never remove the distinguished admin record: the
row keeps its primary key and its email across any single endpoint
call. -/
theorem step_admin {s : Store} {op : Op} (hv : ValidStore s) {u : User}
    (hu : u ∈ s) (he : u.email = "admin@test.com") :
    ∃ u' ∈ step s op, u'.id = u.id ∧ u'.email = "admin@test.com" := by
  cases op with
  | loginOp _ _ _ => exact ⟨u, hu, rfl, he⟩
  | logoutOp => exact ⟨u, hu, rfl, he⟩
  | whoamiOp _ _ => exact ⟨u, hu, rfl, he⟩
  | listUsersOp _ _ => exact ⟨u, hu, rfl, he⟩
  | changePasswordOp token now data =>
    simp only [step]
    split
    · exact ⟨u, hu, rfl, he⟩
    · next cu hcu =>
        split
        · exact ⟨u, hu, rfl, he⟩
        · next msg s2 hok =>
            obtain ⟨np, _, hs2⟩ := change_password_ok hok
            subst hs2
            by_cases hid : u.id = cu.id
            · have hcum := get_current_user_obj_mem hcu
              have : u = cu := valid_store_id_inj hv hu hcum hid
              subst this
              refine ⟨u.set_password np, List.mem_map.mpr ⟨u, hu, ?_⟩, rfl, he⟩
              simp [User.set_password]
            · refine ⟨u, List.mem_map.mpr ⟨u, hu, ?_⟩, rfl, he⟩
              simp [beq_iff_eq, hid]
  | createUserOp token now data newId =>
    simp only [step]
    split
    · exact ⟨u, hu, rfl, he⟩
    · next cu hcu =>
        split
        · exact ⟨u, hu, rfl, he⟩
        · next out s2 hok =>
            obtain ⟨w, _, _, _, hs2⟩ := create_user_ok hok
            subst hs2
            exact ⟨u, List.mem_append_left _ hu, rfl, he⟩
  | deleteUserOp token now target =>
    simp only [step]
    split
    · exact ⟨u, hu, rfl, he⟩
    · next cu hcu =>
        split
        · exact ⟨u, hu, rfl, he⟩
        · next msg s2 hok =>
            obtain ⟨w, hfind, hwadm, hs2⟩ := delete_user_ok hok
            subst hs2
            have hwmem : w ∈ s := List.mem_of_find?_eq_some hfind
            have hne : u.id ≠ w.id := by
              intro hid
              have : u = w := valid_store_id_inj hv hu hwmem hid
              subst this
              rw [he] at hwadm
              simp at hwadm
            refine ⟨u, List.mem_filter.mpr ⟨hu, ?_⟩, rfl, he⟩
            simp [beq_iff_eq, hne]

/-- One request keeps the primary-key column duplicate-free, given that
the id generated for an inserted row is fresh. -/
theorem step_valid {s : Store} {op : Op} (hv : ValidStore s)
    (hf : OpFresh s op = true) : ValidStore (step s op) := by
  cases op with
  | loginOp _ _ _ => exact hv
  | logoutOp => exact hv
  | whoamiOp _ _ => exact hv
  | listUsersOp _ _ => exact hv
  | changePasswordOp token now data =>
    simp only [step]
    split
    · exact hv
    · next cu hcu =>
        split
        · exact hv
        · next msg s2 hok =>
            obtain ⟨np, _, hs2⟩ := change_password_ok hok
            subst hs2
            have hmap : (s.map
                (fun u => if u.id == cu.id then cu.set_password np else u)).map
                  User.id = s.map User.id := by
              rw [List.map_map]
              apply List.map_congr_left
              intro a _
              by_cases hid : a.id = cu.id
              · simp [Function.comp, hid, User.set_password]
              · simp [Function.comp, beq_iff_eq, hid]
            unfold ValidStore
            rw [hmap]
            exact hv
  | createUserOp token now data newId =>
    simp only [step]
    split
    · exact hv
    · next cu hcu =>
        split
        · exact hv
        · next out s2 hok =>
            obtain ⟨w, hwid, _, _, hs2⟩ := create_user_ok hok
            subst hs2
            have hnotin : w.id ∉ s.map User.id := by
              intro hmem
              obtain ⟨v, hv2, hvid⟩ := List.mem_map.mp hmem
              have := List.all_eq_true.mp hf v hv2
              rw [hwid] at hvid
              simp [hvid] at this
            unfold ValidStore at hv ⊢
            rw [List.map_append]
            simp [List.nodup_append, hv, hnotin]
  | deleteUserOp token now target =>
    simp only [step]
    split
    · exact hv
    · next cu hcu =>
        split
        · exact hv
        · next msg s2 hok =>
            obtain ⟨w, _, _, hs2⟩ := delete_user_ok hok
            subst hs2
            exact List.Sublist.nodup
              ((List.filter_sublist s).map User.id) hv

/-- The admin record survives any request sequence: preservation of
`step_admin` along `run`, threading well-formedness via `step_valid`. -/
theorem run_preserves_admin :
    ∀ (ops : List Op) (s : Store), ValidStore s → IdsFresh s ops = true →
    ∀ u ∈ s, u.email = "admin@test.com" →
    ∃ u' ∈ run s ops, u'.id = u.id ∧ u'.email = "admin@test.com" := by
  intro ops
  induction ops with
  | nil => exact fun s _ _ u hu he => ⟨u, hu, rfl, he⟩
  | cons op rest ih =>
    intro s hv hf u hu he
    unfold IdsFresh at hf
    rw [Bool.and_eq_true] at hf
    obtain ⟨hof, hrest⟩ := hf
    obtain ⟨u', hu', hid, he'⟩ := step_admin hv hu he
    obtain ⟨u'', hu'', hid2, he2⟩ :=
      ih (step s op) (step_valid hv hof) hrest u' hu' he'
    exact ⟨u'', hu'', by rw [hid2, hid], he2⟩

/-! Concrete sample data used by the witnesses: the bootstrapped admin
account (main.py lines 22-31 / init_admin.py) and one ordinary user. -/

def adminUser : User :=
  ⟨"admin-id", some "Admin User", "admin@test.com", some 0, none,
    some (pwd_context_hash "123456")⟩

def bobUser : User :=
  ⟨"bob-id", some "Bob", "bob@test.com", none, none,
    some (pwd_context_hash "hunter2")⟩

def store0 : Store := [adminUser, bobUser]

def adminToken : Token :=
  create_access_token (some "admin@test.com") (some "admin-id")
    (some (ACCESS_TOKEN_EXPIRE_MINUTES * 60)) 0

def bobToken : Token :=
  create_access_token (some "bob@test.com") (some "bob-id")
    (some (ACCESS_TOKEN_EXPIRE_MINUTES * 60)) 0

/-- C1: for every well-formed store containing the distinguished admin
account and every request sequence (with fresh generated ids), the
admin record is never deleted; in particular `delete_user` invoked by
the admin actor on the admin account's id fails with the
ValidationError `400 Cannot delete admin user` and the store is
unchanged afterwards. -/
theorem admin_account_never_deleted :
    (∀ (store : Store) (ops : List Op), ValidStore store →
      IdsFresh store ops = true → ∀ u ∈ store, u.email = "admin@test.com" →
      ∃ u' ∈ run store ops, u'.id = u.id ∧ u'.email = "admin@test.com") ∧
    (∀ (store : Store) (actor target : User) (token : Token) (now : Nat),
      ValidStore store → target ∈ store → target.email = "admin@test.com" →
      actor.email = "admin@test.com" →
      delete_user target.id actor store =
        .error ⟨400, "Cannot delete admin user"⟩ ∧
      (get_current_user_obj token store now = .ok actor →
        step store (.deleteUserOp token now target.id) = store)) := by
  constructor
  · exact fun store ops hv hf u hu he => run_preserves_admin ops store hv hf u hu he
  · intro store actor target token now hv htmem htadm haadm
    have hdel : delete_user target.id actor store =
        .error ⟨400, "Cannot delete admin user"⟩ := by
      unfold delete_user
      have hbne : (actor.email != "admin@test.com") = false := by
        simp [haadm]
      rw [hbne]
      simp only [Bool.false_eq_true, if_false]
      have hfind : ∃ w, store.find? (fun u => u.id == target.id) = some w := by
        rw [← Option.isSome_iff_exists]
        rw [List.find?_isSome]
        exact ⟨target, htmem, by simp⟩
      obtain ⟨w, hw⟩ := hfind
      rw [hw]
      have hwmem : w ∈ store := List.mem_of_find?_eq_some hw
      have hwid : w.id = target.id := by
        have := List.find?_some hw
        simpa [beq_iff_eq] using this
      have : w = target := valid_store_id_inj hv hwmem htmem hwid
      subst this
      simp [htadm]
    refine ⟨hdel, ?_⟩
    intro hres
    simp only [step, hres, hdel]

/-- Witness for C1 at a concrete store and request sequence. -/
theorem admin_account_never_deleted_witness :
    (∃ u' ∈ run store0 [Op.deleteUserOp adminToken 5 "admin-id"],
      u'.id = adminUser.id ∧ u'.email = "admin@test.com") ∧
    delete_user adminUser.id adminUser store0 =
      .error ⟨400, "Cannot delete admin user"⟩ ∧
    step store0 (.deleteUserOp adminToken 5 adminUser.id) = store0 := by
  have h1 := admin_account_never_deleted.1 store0
    [Op.deleteUserOp adminToken 5 "admin-id"]
    (by unfold ValidStore; decide) (by decide) adminUser (by decide) rfl
  have h2 := admin_account_never_deleted.2 store0 adminUser adminUser
    adminToken 5 (by unfold ValidStore; decide) (by decide) rfl rfl
  exact ⟨h1, h2.1, h2.2 (by rfl)⟩

/-- C2: every actor whose email is not the hardcoded admin email gets
the Forbidden error `403 Only admin can manage users` from each of
ListUsers, CreateUser and DeleteUser, whatever the input, and the store
is exactly as before the call. -/
theorem nonadmin_forbidden :
    ∀ (actor : User) (store : Store), actor.email ≠ "admin@test.com" →
    list_users actor store = .error ⟨403, "Only admin can manage users"⟩ ∧
    (∀ data newId, create_user data actor store newId =
      .error ⟨403, "Only admin can manage users"⟩) ∧
    (∀ uid, delete_user uid actor store =
      .error ⟨403, "Only admin can manage users"⟩) ∧
    (∀ token now, get_current_user_obj token store now = .ok actor →
      step store (.listUsersOp token now) = store ∧
      (∀ data newId, step store (.createUserOp token now data newId) = store) ∧
      (∀ uid, step store (.deleteUserOp token now uid) = store)) := by
  intro actor store h
  have hb : (actor.email != "admin@test.com") = true := by
    simpa [bne_iff_ne] using h
  have hlist : list_users actor store =
      .error ⟨403, "Only admin can manage users"⟩ := by
    simp [list_users, hb]
  have hcreate : ∀ data newId, create_user data actor store newId =
      .error ⟨403, "Only admin can manage users"⟩ := by
    intro data newId
    simp [create_user, hb]
  have hdel : ∀ uid, delete_user uid actor store =
      .error ⟨403, "Only admin can manage users"⟩ := by
    intro uid
    simp [delete_user, hb]
  refine ⟨hlist, hcreate, hdel, ?_⟩
  intro token now hres
  refine ⟨rfl, ?_, ?_⟩
  · intro data newId
    simp only [step, hres, hcreate data newId]
  · intro uid
    simp only [step, hres, hdel uid]

/-- Witness for C2 with the ordinary user as actor. -/
theorem nonadmin_forbidden_witness :
    list_users bobUser store0 =
      .error ⟨403, "Only admin can manage users"⟩ ∧
    create_user ⟨some "new@test.com", none, some "pw"⟩ bobUser store0
      "new-id" = .error ⟨403, "Only admin can manage users"⟩ ∧
    delete_user "admin-id" bobUser store0 =
      .error ⟨403, "Only admin can manage users"⟩ ∧
    step store0 (.deleteUserOp bobToken 5 "admin-id") = store0 := by
  have h := nonadmin_forbidden bobUser store0 (by decide)
  exact ⟨h.1, h.2.1 ⟨some "new@test.com", none, some "pw"⟩ "new-id",
    h.2.2.1 "admin-id", (h.2.2.2 bobToken 5 (by rfl)).2.2 "admin-id"⟩

/-- C3: login fails with the single 401 `Incorrect email or password`
exactly when the email is absent from the store or the password does
not verify (in particular whenever the stored hash is unset, where
verification is the total function returning false); on success the
issued token is signed with the server key and its embedded subject is
the login email. -/
theorem login_spec :
    ∀ (store : Store) (username password : String) (now : Nat),
    (get_user_by_email username store = none →
      login_for_access_token username password store now =
        .error ⟨401, "Incorrect email or password"⟩) ∧
    (∀ u, get_user_by_email username store = some u →
      u.verify_password password = false →
      login_for_access_token username password store now =
        .error ⟨401, "Incorrect email or password"⟩) ∧
    (∀ u : User, u.password_hash = none →
      u.verify_password password = false) ∧
    (∀ e, login_for_access_token username password store now = .error e →
      e = ⟨401, "Incorrect email or password"⟩ ∧
      (get_user_by_email username store = none ∨
        ∃ u, get_user_by_email username store = some u ∧
          u.verify_password password = false)) ∧
    (∀ r, login_for_access_token username password store now = .ok r →
      ∃ c, r.access_token = .signed c SECRET_KEY ∧ c.sub = some username) := by
  intro store username password now
  refine ⟨?_, ?_, ?_, ?_, ?_⟩
  · intro h
    simp [login_for_access_token, authenticate_user, h]
  · intro u hu hv
    simp [login_for_access_token, authenticate_user, hu, hv]
  · intro u hn
    simp [User.verify_password, hn]
  · intro e he
    unfold login_for_access_token authenticate_user at he
    cases hu : get_user_by_email username store with
    | none =>
      rw [hu] at he
      simp only [Except.error.injEq] at he
      exact ⟨he.symm, Or.inl rfl⟩
    | some u =>
      rw [hu] at he
      simp only at he
      by_cases hv : u.verify_password password
      · simp [hv] at he
      · simp only [hv, Bool.false_eq_true, if_false,
          Except.error.injEq] at he
        exact ⟨he.symm, Or.inr ⟨u, rfl, by simpa using hv⟩⟩
  · intro r hr
    unfold login_for_access_token authenticate_user at hr
    cases hu : get_user_by_email username store with
    | none =>
      rw [hu] at hr
      exact Except.noConfusion hr
    | some u =>
      rw [hu] at hr
      simp only at hr
      by_cases hv : u.verify_password password
      · simp only [hv, if_true] at hr
        cases hr
        refine ⟨⟨some u.email, some u.id,
          now + ACCESS_TOKEN_EXPIRE_MINUTES * 60⟩, rfl, ?_⟩
        show some u.email = some username
        rw [(get_user_by_email_mem hu).2]
      · simp [hv] at hr

/-- Witness for C3: an unknown email, a wrong password, and a
successful admin login whose token subject is the login email. -/
theorem login_spec_witness :
    login_for_access_token "missing@test.com" "pw" store0 0 =
      .error ⟨401, "Incorrect email or password"⟩ ∧
    login_for_access_token "admin@test.com" "wrong" store0 0 =
      .error ⟨401, "Incorrect email or password"⟩ ∧
    ∃ r, login_for_access_token "admin@test.com" "123456" store0 0 =
      .ok r ∧ ∃ c, r.access_token = .signed c SECRET_KEY ∧
        c.sub = some "admin@test.com" := by
  refine ⟨(login_spec store0 "missing@test.com" "pw" 0).1 (by decide),
    (login_spec store0 "admin@test.com" "wrong" 0).2.1 adminUser
      (by decide) (by decide),
    ⟨_, rfl, (login_spec store0 "admin@test.com" "123456" 0).2.2.2.2 _ rfl⟩⟩

/-- C6: token validation fails with the one shared
`credentials_exception` (401) on a malformed token, a signature under a
different key, and an elapsed expiry — the same error value in all
three cases, so the causes cannot be told apart — and WhoAmI fails with
that same error when the token is valid but the embedded email no
longer resolves to a user. -/
theorem token_validation_single_error :
    ∀ (store : Store) (now : Nat),
    (∀ raw, get_current_user_obj (.malformed raw) store now =
        .error credentials_exception ∧
      get_current_user (.malformed raw) store now =
        .error credentials_exception) ∧
    (∀ (c : Claims) (k : String), k ≠ SECRET_KEY →
      get_current_user_obj (.signed c k) store now =
        .error credentials_exception ∧
      get_current_user (.signed c k) store now =
        .error credentials_exception) ∧
    (∀ c : Claims, c.exp < now →
      get_current_user_obj (.signed c SECRET_KEY) store now =
        .error credentials_exception ∧
      get_current_user (.signed c SECRET_KEY) store now =
        .error credentials_exception) ∧
    (∀ (c : Claims) (email : String), c.sub = some email → ¬ c.exp < now →
      get_user_by_email email store = none →
      get_current_user (.signed c SECRET_KEY) store now =
        .error credentials_exception) := by
  intro store now
  refine ⟨?_, ?_, ?_, ?_⟩
  · exact fun raw => ⟨rfl, rfl⟩
  · intro c k hk
    have hb : (k != SECRET_KEY) = true := by simpa [bne_iff_ne] using hk
    constructor <;>
      simp [get_current_user_obj, get_current_user, jwt_decode, hb]
  · intro c hc
    constructor <;>
      simp [get_current_user_obj, get_current_user, jwt_decode, hc]
  · intro c email hsub hexp hnone
    simp [get_current_user, jwt_decode, hexp, hsub, hnone]

/-- Witness for C6: a garbage token, a token signed under another key,
an expired token, and a valid token for a deleted user. -/
theorem token_validation_single_error_witness :
    get_current_user_obj (.malformed "garbage") store0 5 =
      .error credentials_exception ∧
    get_current_user_obj
      (.signed ⟨some "admin@test.com", some "admin-id", 1800⟩ "other-key")
      store0 5 = .error credentials_exception ∧
    get_current_user_obj
      (.signed ⟨some "admin@test.com", some "admin-id", 3⟩ SECRET_KEY)
      store0 5 = .error credentials_exception ∧
    get_current_user
      (.signed ⟨some "gone@test.com", some "gone-id", 1800⟩ SECRET_KEY)
      store0 5 = .error credentials_exception := by
  have h := token_validation_single_error store0 5
  exact ⟨(h.1 "garbage").1,
    (h.2.1 ⟨some "admin@test.com", some "admin-id", 1800⟩ "other-key"
      (by decide)).1,
    (h.2.2.1 ⟨some "admin@test.com", some "admin-id", 3⟩ (by decide)).1,
    h.2.2.2 ⟨some "gone@test.com", some "gone-id", 1800⟩ "gone@test.com"
      rfl (by decide) (by decide)⟩

/-- C7 counterexample: at a concrete request whose current password is
wrong, `change_password` returns the 400 ValidationError
`Current password is incorrect` — not a 401 AuthError
(InvalidCredentials) as the claim states. -/
theorem change_password_wrong_current_counterexample :
    change_password ⟨some "wrongpw", some "newpw"⟩ bobUser store0 =
      .error ⟨400, "Current password is incorrect"⟩ ∧
    (400 : Nat) ≠ 401 := by
  exact ⟨rfl, by decide⟩

/-- Shared helper: the required-fields ValidationError of
`change_password` fires whenever either body field is absent or empty,
before any password verification. -/
theorem change_password_required_fields (data : ChangePasswordBody)
    (actor : User) (store : Store)
    (h : data.current_password = none ∨
      (∃ cp, data.current_password = some cp ∧ cp.isEmpty = true) ∨
      data.new_password = none ∨
      (∃ np, data.new_password = some np ∧ np.isEmpty = true)) :
    change_password data actor store =
      .error ⟨400, "current_password and new_password are required"⟩ := by
  obtain ⟨cp?, np?⟩ := data
  rcases h with h | ⟨cp, hcp, hemp⟩ | h | ⟨np, hnp, hemp⟩
  · simp only at h
    subst h
    cases np? <;> rfl
  · simp only at hcp
    subst hcp
    cases np? with
    | none => rfl
    | some np => simp [change_password, hemp]
  · simp only at h
    subst h
    cases cp? <;> rfl
  · simp only at hnp
    subst hnp
    cases cp? with
    | none => rfl
    | some cp => simp [change_password, hemp]

/-- C7 (amended): for an authenticated actor, ChangePassword fails with
the ValidationError `400 current_password and new_password are
required` when either field is missing or empty, fails with the
ValidationError `400 Current password is incorrect` when the supplied
current password does not verify against the actor's stored hash, and
only on success hashes and persists the new password. -/
theorem change_password_spec :
    ∀ (data : ChangePasswordBody) (actor : User) (store : Store),
    ((data.current_password = none ∨
      (∃ cp, data.current_password = some cp ∧ cp.isEmpty = true) ∨
      data.new_password = none ∨
      (∃ np, data.new_password = some np ∧ np.isEmpty = true)) →
      change_password data actor store =
        .error ⟨400, "current_password and new_password are required"⟩) ∧
    (∀ cp np, data.current_password = some cp →
      data.new_password = some np → cp.isEmpty = false →
      np.isEmpty = false → actor.verify_password cp = false →
      change_password data actor store =
        .error ⟨400, "Current password is incorrect"⟩) ∧
    (∀ cp np, data.current_password = some cp →
      data.new_password = some np → cp.isEmpty = false →
      np.isEmpty = false → actor.verify_password cp = true →
      change_password data actor store =
        .ok ("Password changed successfully",
          store.map (fun u => if u.id == actor.id then actor.set_password np
            else u))) := by
  intro data actor store
  refine ⟨change_password_required_fields data actor store, ?_, ?_⟩
  · intro cp np hcp hnp hcpe hnpe hv
    obtain ⟨cp?, np?⟩ := data
    simp only at hcp hnp
    subst hcp
    subst hnp
    simp [change_password, hcpe, hnpe, hv]
  · intro cp np hcp hnp hcpe hnpe hv
    obtain ⟨cp?, np?⟩ := data
    simp only at hcp hnp
    subst hcp
    subst hnp
    simp [change_password, hcpe, hnpe, hv]

/-- Witness for C7's amended claim: a missing field, a wrong current
password, and a successful change persisting the new hash. -/
theorem change_password_spec_witness :
    change_password ⟨none, some "x"⟩ bobUser store0 =
      .error ⟨400, "current_password and new_password are required"⟩ ∧
    change_password ⟨some "wrong", some "x"⟩ bobUser store0 =
      .error ⟨400, "Current password is incorrect"⟩ ∧
    change_password ⟨some "hunter2", some "newpw"⟩ bobUser store0 =
      .ok ("Password changed successfully",
        store0.map (fun u => if u.id == bobUser.id then
          bobUser.set_password "newpw" else u)) := by
  refine ⟨(change_password_spec ⟨none, some "x"⟩ bobUser store0).1
      (Or.inl rfl),
    (change_password_spec ⟨some "wrong", some "x"⟩ bobUser store0).2.1
      "wrong" "x" rfl rfl (by decide) (by decide) (by decide),
    (change_password_spec ⟨some "hunter2", some "newpw"⟩ bobUser store0).2.2
      "hunter2" "newpw" rfl rfl (by decide) (by decide) (by decide)⟩

/-- C8: CreateUser by the admin actor with an email already present
fails with `400 Email already exists`, the store is unchanged, and a
subsequent login with that email succeeds exactly when the password
verifies against the original user's stored hash. -/
theorem create_duplicate_email_rejected :
    ∀ (store : Store) (actor : User) (data : CreateUserBody)
      (orig : User) (newId email password : String),
    actor.email = "admin@test.com" →
    data.email = some email → data.password = some password →
    email.isEmpty = false → password.isEmpty = false →
    get_user_by_email email store = some orig →
    create_user data actor store newId =
      .error ⟨400, "Email already exists"⟩ ∧
    (∀ pw now, (∃ r, login_for_access_token email pw store now = .ok r) ↔
      orig.verify_password pw = true) ∧
    (∀ token now, get_current_user_obj token store now = .ok actor →
      step store (.createUserOp token now data newId) = store) := by
  intro store actor data orig newId email password hadm hde hdp hene hpne hdup
  have hb : (actor.email != "admin@test.com") = false := by simp [hadm]
  have hcreate : create_user data actor store newId =
      .error ⟨400, "Email already exists"⟩ := by
    obtain ⟨e?, n?, p?⟩ := data
    simp only at hde hdp
    subst hde
    subst hdp
    simp [create_user, hb, hene, hpne, hdup]
  refine ⟨hcreate, ?_, ?_⟩
  · intro pw now
    constructor
    · rintro ⟨r, hr⟩
      unfold login_for_access_token authenticate_user at hr
      rw [hdup] at hr
      simp only at hr
      by_cases hv : orig.verify_password pw
      · exact hv
      · simp [hv] at hr
    · intro hv
      refine ⟨⟨create_access_token (some orig.email) (some orig.id)
        (some (ACCESS_TOKEN_EXPIRE_MINUTES * 60)) now, "bearer", orig.id,
        orig.email, orig.name⟩, ?_⟩
      unfold login_for_access_token authenticate_user
      rw [hdup]
      simp [hv]
  · intro token now hres
    simp only [step, hres, hcreate]

/-- Witness for C8: the admin re-creates the existing user `bob`. -/
theorem create_duplicate_email_rejected_witness :
    create_user ⟨some "bob@test.com", some "Bob2", some "otherpw"⟩
      adminUser store0 "new-id" = .error ⟨400, "Email already exists"⟩ ∧
    (∃ r, login_for_access_token "bob@test.com" "hunter2" store0 7 =
      .ok r) ∧
    ¬ (∃ r, login_for_access_token "bob@test.com" "otherpw" store0 7 =
      .ok r) := by
  have h := create_duplicate_email_rejected store0 adminUser
    ⟨some "bob@test.com", some "Bob2", some "otherpw"⟩ bobUser "new-id"
    "bob@test.com" "otherpw" rfl rfl rfl (by decide) (by decide) (by decide)
  refine ⟨h.1, (h.2.1 "hunter2" 7).mpr (by decide), ?_⟩
  intro hex
  have := (h.2.1 "otherpw" 7).mp hex
  simp [bobUser, User.verify_password, pwd_context_verify,
    pwd_context_hash] at this

/-- C9: logout always returns the fixed acknowledgement and changes no
server state; after any number of logout calls token validation gives
the same result as before, and a signed token stays valid until its
embedded expiry has elapsed, after which it fails. -/
theorem logout_noop :
    ∀ (store : Store),
    logout store = ("Successfully logged out", store) ∧
    (∀ n, run store (List.replicate n .logoutOp) = store) ∧
    (∀ (token : Token) (now n : Nat),
      get_current_user_obj token (run store (List.replicate n .logoutOp))
        now = get_current_user_obj token store now) ∧
    (∀ (c : Claims) (now : Nat), ¬ c.exp < now →
      jwt_decode (.signed c SECRET_KEY) SECRET_KEY now = .ok c) ∧
    (∀ (c : Claims) (now : Nat), c.exp < now →
      jwt_decode (.signed c SECRET_KEY) SECRET_KEY now = .error ()) := by
  intro store
  have hrun : ∀ n, run store (List.replicate n Op.logoutOp) = store := by
    intro n
    induction n with
    | zero => rfl
    | succ k ihh =>
      rw [List.replicate_succ]
      exact ihh
  refine ⟨rfl, hrun, ?_, ?_, ?_⟩
  · intro token now n
    rw [hrun n]
  · intro c now h
    simp [jwt_decode, h]
  · intro c now h
    simp [jwt_decode, h]

/-- Witness for C9 at a concrete store and token. -/
theorem logout_noop_witness :
    logout store0 = ("Successfully logged out", store0) ∧
    run store0 (List.replicate 3 .logoutOp) = store0 ∧
    jwt_decode (.signed ⟨some "bob@test.com", some "bob-id", 1800⟩
      SECRET_KEY) SECRET_KEY 1800 =
      .ok ⟨some "bob@test.com", some "bob-id", 1800⟩ ∧
    jwt_decode (.signed ⟨some "bob@test.com", some "bob-id", 1800⟩
      SECRET_KEY) SECRET_KEY 1801 = .error () := by
  have h := logout_noop store0
  exact ⟨h.1, h.2.1 3,
    h.2.2.2.1 ⟨some "bob@test.com", some "bob-id", 1800⟩ 1800 (by decide),
    h.2.2.2.2 ⟨some "bob@test.com", some "bob-id", 1800⟩ 1801 (by decide)⟩

/-- C10: error precedence — the admin check of CreateUser and
DeleteUser precedes input validation and target lookup (a non-admin
actor gets 403 whatever the body or target), the 404 of DeleteUser for
an unknown id precedes the admin-protection 400, and the
missing-field 400 of ChangePassword precedes current-password
verification (any actor, any stored hash). -/
theorem error_precedence :
    (∀ (actor : User) (store : Store) (data : CreateUserBody)
      (newId : String), actor.email ≠ "admin@test.com" →
      create_user data actor store newId =
        .error ⟨403, "Only admin can manage users"⟩) ∧
    (∀ (actor : User) (store : Store) (uid : String),
      actor.email ≠ "admin@test.com" →
      delete_user uid actor store =
        .error ⟨403, "Only admin can manage users"⟩) ∧
    (∀ (actor : User) (store : Store) (uid : String),
      actor.email = "admin@test.com" →
      store.find? (fun u => u.id == uid) = none →
      delete_user uid actor store = .error ⟨404, "User not found"⟩) ∧
    (∀ (actor : User) (store : Store) (data : ChangePasswordBody),
      (data.current_password = none ∨
        (∃ cp, data.current_password = some cp ∧ cp.isEmpty = true) ∨
        data.new_password = none ∨
        (∃ np, data.new_password = some np ∧ np.isEmpty = true)) →
      change_password data actor store =
        .error ⟨400, "current_password and new_password are required"⟩) := by
  refine ⟨?_, ?_, ?_, ?_⟩
  · intro actor store data newId h
    have hb : (actor.email != "admin@test.com") = true := by
      simpa [bne_iff_ne] using h
    simp [create_user, hb]
  · intro actor store uid h
    have hb : (actor.email != "admin@test.com") = true := by
      simpa [bne_iff_ne] using h
    simp [delete_user, hb]
  · intro actor store uid hadm hnone
    have hb : (actor.email != "admin@test.com") = false := by simp [hadm]
    simp [delete_user, hb, hnone]
  · exact fun actor store data h =>
      change_password_required_fields data actor store h

/-- Witness for C10: a non-admin create with a duplicate email and a
non-admin create with a missing password both get 403, a non-admin
delete of an unknown id gets 403, an admin delete of an unknown id gets
404, and a change-password with both fields missing gets the
required-fields 400 even though any current password would be wrong. -/
theorem error_precedence_witness :
    create_user ⟨some "bob@test.com", none, some "pw"⟩ bobUser store0
      "nid" = .error ⟨403, "Only admin can manage users"⟩ ∧
    create_user ⟨none, none, none⟩ bobUser store0 "nid" =
      .error ⟨403, "Only admin can manage users"⟩ ∧
    delete_user "ghost-id" bobUser store0 =
      .error ⟨403, "Only admin can manage users"⟩ ∧
    delete_user "ghost-id" adminUser store0 =
      .error ⟨404, "User not found"⟩ ∧
    change_password ⟨none, none⟩ bobUser store0 =
      .error ⟨400, "current_password and new_password are required"⟩ := by
  have h := error_precedence
  exact ⟨h.1 bobUser store0 ⟨some "bob@test.com", none, some "pw"⟩ "nid"
      (by decide),
    h.1 bobUser store0 ⟨none, none, none⟩ "nid" (by decide),
    h.2.1 bobUser store0 "ghost-id" (by decide),
    h.2.2.1 adminUser store0 "ghost-id" rfl (by decide),
    h.2.2.2 bobUser store0 ⟨none, none⟩ (Or.inl rfl)⟩

/-! Concrete passwords exercising the 72-byte boundary of
`User.set_password`. -/

def blankUser : User := ⟨"u0", none, "u0@test.com", none, none, none⟩

def pwA73 : String := String.mk (List.replicate 73 'a')

def pwA72 : String := String.mk (List.replicate 72 'a')

def pwA80 : String := String.mk (List.replicate 80 'a')

def pwMb74a : String := String.mk (List.replicate 36 'é') ++ "aa"

def pwMb74b : String := String.mk (List.replicate 36 'é') ++ "bb"

/-- C4 evaluated at the failing input: for the 73-byte password of 73
`a`s, `set_password` hashes the truncated 72-character prefix but
`verify_password` hashes the untruncated candidate, so the round trip
`verify(password, hash(password))` is false — only the truncated
prefix verifies. -/
theorem password_roundtrip_failing_input :
    pwA73.toUTF8.size = 73 ∧
    (blankUser.set_password pwA73).verify_password pwA73 = false ∧
    (blankUser.set_password pwA73).verify_password pwA72 = true := by
  refine ⟨by decide, by decide, by decide⟩

/-- C5 evaluated at the failing inputs: the two 74-byte passwords
agreeing on their first 72 bytes (36 two-byte `é`s) but differing after
are hashed untruncated — the code slices 72 characters, not 72 bytes —
so their hashes differ; and even in the pure-ASCII case where character
truncation does equate the hashes (80 `a`s vs 72 `a`s), the longer
password fails to verify against the common hash because
`verify_password` never truncates. -/
theorem truncation_failing_input :
    (pwMb74a.toUTF8.size = 74 ∧ pwMb74b.toUTF8.size = 74) ∧
    pwMb74a.toUTF8.data.toList.take 72 = pwMb74b.toUTF8.data.toList.take 72 ∧
    pwMb74a ≠ pwMb74b ∧
    (blankUser.set_password pwMb74a).password_hash ≠
      (blankUser.set_password pwMb74b).password_hash ∧
    pwA80.toUTF8.data.toList.take 72 = pwA72.toUTF8.data.toList ∧
    (blankUser.set_password pwA80).password_hash =
      (blankUser.set_password pwA72).password_hash ∧
    (blankUser.set_password pwA72).verify_password pwA80 = false := by
  decide

end PnpmUv
